import Mathlib

/-!
Verification of the Battlesnake test-runner service.

The definitions below are a shallow embedding of the repository's Convex
backend: the test-execution pipeline (`executeTestRun` and its terminal
mutation `updateTestRunResult`), the moderation mutations on tests
(`updateUserTest`, `adminUpdateTest`, `approveTest`, `rejectTest`,
`permaRejectTest`, `resubmitTest`, `makeTestPrivate`), and the
authentication layer (`login` with its rate limiter, the session gates
`requireUserSession`, `getCurrentUser`, `requireAdminSession`).

Database tables are association lists keyed by `Nat` document ids; a
Convex `patch` merges fields into the stored document, which the
embedding renders as a record update that assigns exactly the fields the
source lists (a field patched with the JS value `undefined` is removed,
rendered as `none`).  External collaborators (the HTTP fetch, the JSON
codec, bcrypt, token generation, the wall clock) are passed in as
explicit parameters.
-/

namespace Snek

/-! ### Wire data model (from `convex/schema.ts`) -/

structure Coordinate where
  x : Int
  y : Int
deriving Repr, DecidableEq

structure Snake where
  id : String
  name : String
  health : Int
  body : List Coordinate
  head : Coordinate
  length : Int
deriving Repr, DecidableEq

structure Board where
  height : Int
  width : Int
  food : List Coordinate
  hazards : List Coordinate
  snakes : List Snake
deriving Repr, DecidableEq

structure RulesetSettings where
  foodSpawnChance : Option Int
  minimumFood : Option Int
  hazardDamagePerTurn : Option Int
  hazardMap : Option String
deriving Repr, DecidableEq

structure Ruleset where
  name : Option String
  version : Option String
  settings : Option RulesetSettings
deriving Repr, DecidableEq

structure GameConfig where
  id : Option String
  ruleset : Option Ruleset
  map : Option String
  timeout : Option Int
deriving Repr, DecidableEq

/-- A `tests` document. `status` is one of "approved" | "pending" |
"rejected" | "private" when present; absent on legacy admin-created
tests. -/
structure Test where
  name : String
  description : Option String
  board : Board
  game : Option GameConfig
  turn : Int
  youId : String
  expectedSafeMoves : List String
  createdAt : Nat
  ownerId : Option Nat
  status : Option String
  approvedBy : Option Nat
  approvedAt : Option Nat
  rejectionReason : Option String
  permaRejected : Option Bool
deriving Repr, DecidableEq

/-- A `testRuns` document. `status` is "running" | "completed" | "failed". -/
structure TestRun where
  testId : Nat
  userId : Nat
  botUrl : String
  status : String
  move : Option String
  shout : Option String
  passed : Option Bool
  error : Option String
  httpStatus : Option Nat
  rawResponse : Option String
  responseTimeMs : Option Nat
  startedAt : Nat
  completedAt : Option Nat
deriving Repr, DecidableEq

/-! ### Generic table operations (the document store boundary) -/

/-- `ctx.db.get`: look a document up by id. -/
def dbGet (rows : List (Nat × α)) (id : Nat) : Option α :=
  (rows.find? (fun r => r.1 = id)).map (fun r => r.2)

/-- `ctx.db.patch`: merge an update into the document with the given id. -/
def dbPatch (rows : List (Nat × α)) (id : Nat) (f : α → α) : List (Nat × α) :=
  rows.map (fun r => if r.1 = id then (r.1, f r.2) else r)

/-- `ctx.db.insert`: append a fresh document. -/
def dbInsert (rows : List (Nat × α)) (id : Nat) (v : α) : List (Nat × α) :=
  rows ++ [(id, v)]

/-- `ctx.db.delete`: remove the document with the given id. -/
def dbDelete (rows : List (Nat × α)) (id : Nat) : List (Nat × α) :=
  rows.filter (fun r => ¬ r.1 = id)

/-! ### JSON values (the body of the bot's HTTP response) -/

/-- A parsed JSON value, as produced by the platform JSON parser. -/
inductive Json where
  | jnull : Json
  | jbool : Bool → Json
  | jnum : Int → Json
  | jstr : String → Json
  | jarr : List Json → Json
  | jobj : List (String × Json) → Json

/-- `typeof data?.k === "string" ? data.k : null`: extract field `k` of
`j` when it is a string; any other shape (missing field, non-object,
non-string field) normalizes to `none`. -/
def jsonGetStr (j : Json) (k : String) : Option String :=
  match j with
  | .jobj fields =>
    match fields.lookup k with
    | some (.jstr s) => some s
    | _ => none
  | _ => none

/-! ### The run-execution pipeline (from `executeTestRun` and
`updateTestRunResult` in the battlesnake module) -/

/-- State visible to the pipeline: the `tests` and `testRuns` tables. -/
structure RunState where
  tests : List (Nat × Test)
  runs : List (Nat × TestRun)
deriving DecidableEq

/-- Arguments of the internal mutation `updateTestRunResult`. -/
structure RunResultArgs where
  status : String
  move : Option String := none
  shout : Option String := none
  passed : Option Bool := none
  error : Option String := none
  httpStatus : Option Nat := none
  rawResponse : Option String := none
  responseTimeMs : Option Nat := none

/-- `updateTestRunResult`: the single terminal patch on a run record.
Every field of the patch object is written (an absent optional argument
arrives as `undefined` and clears the field); `completedAt` is stamped
with the current time. -/
def updateTestRunResult (st : RunState) (runId : Nat) (args : RunResultArgs)
    (now : Nat) : RunState :=
  { st with runs := dbPatch st.runs runId (fun run =>
      { run with
        status := args.status
        move := args.move
        shout := args.shout
        passed := args.passed
        error := args.error
        httpStatus := args.httpStatus
        rawResponse := args.rawResponse
        responseTimeMs := args.responseTimeMs
        completedAt := some now }) }

/-- Outcome of the `fetch` call against the bot endpoint: either the
promise rejected with an error message, or a response arrived with an
HTTP status, a body text, and an observed elapsed time. -/
inductive FetchOutcome where
  | failure : String → FetchOutcome
  | response : Nat → String → Nat → FetchOutcome

/-- Value returned by the `executeTestRun` action to its caller. -/
structure ExecResult where
  ok : Bool
  error : Option String := none
  move : Option String := none
  shout : Option String := none
  passed : Option Bool := none
  responseTimeMs : Option Nat := none
deriving Repr, DecidableEq

/-- The JS `String.prototype.trim`: drop whitespace from both ends,
rendered over the character sequence. -/
def jsTrim (s : String) : String :=
  String.mk ((s.data.dropWhile Char.isWhitespace).reverse.dropWhile
    Char.isWhitespace).reverse

/-- The JS `String.prototype.endsWith`. -/
def jsEndsWith (s suffix : String) : Bool :=
  suffix.data.isSuffixOf s.data

/-- The JS `String.prototype.slice(0, n)`: the first `n` characters. -/
def jsSlice (s : String) (n : Nat) : String :=
  String.mk (s.data.take n)

/-- The JS `String.prototype.toLowerCase` (ASCII case folding). -/
def jsToLower (s : String) : String :=
  String.mk (s.data.map Char.toLower)

/-- `rawUrl.replace(/\/+$/, "")`: strip every trailing slash. -/
def stripTrailingSlashes (s : String) : String :=
  String.mk (s.data.reverse.dropWhile (fun ch => ch = '/')).reverse

/-- Append `/move` unless the normalized URL already ends with it. -/
def moveEndpoint (normalizedUrl : String) : String :=
  if jsEndsWith normalizedUrl "/move" then normalizedUrl
  else normalizedUrl ++ "/move"

/-- The full endpoint computation of `executeTestRun`: trim the stored
bot URL, then strip trailing slashes and suffix `/move` if needed. -/
def botEndpoint (botUrl : String) : String :=
  moveEndpoint (stripTrailingSlashes (jsTrim botUrl))

/-- `response.ok`: HTTP status in the 2xx range. -/
def httpOk (status : Nat) : Bool :=
  200 ≤ status && status ≤ 299

/-- The `executeTestRun` action.  `jsonParse` and `jsonStringify` stand
for the platform JSON codec, and `fetch` for the HTTP client, which is
handed the computed endpoint.  Control flow mirrors the source: look the
run up and require `running` status; look the test up; find the `you`
snake; validate the bot URL; perform the fetch; read the body as text;
parse it when non-empty (a parse failure is terminal); reject non-2xx
statuses; otherwise extract `move` and `shout`, compute `passed`, and
record the completed run. -/
def executeTestRun (jsonParse : String → Option Json)
    (jsonStringify : Json → String) (fetch : String → FetchOutcome)
    (st : RunState) (runId : Nat) (now : Nat) : ExecResult × RunState :=
  match dbGet st.runs runId with
  | none => ({ ok := false, error := some "Test run not found." }, st)
  | some run =>
    if run.status ≠ "running" then
      ({ ok := false, error := some "Test run is not in running state." }, st)
    else
      match dbGet st.tests run.testId with
      | none =>
        ({ ok := false, error := some "Test not found." },
         updateTestRunResult st runId
           { status := "failed", error := some "Test not found." } now)
      | some test =>
        match test.board.snakes.find? (fun s => s.id = test.youId) with
        | none =>
          ({ ok := false, error := some "You snake not found in test." },
           updateTestRunResult st runId
             { status := "failed", error := some "You snake not found in test." } now)
        | some _you =>
          let rawUrl := jsTrim run.botUrl
          if rawUrl = "" then
            ({ ok := false, error := some "Bot URL is required." },
             updateTestRunResult st runId
               { status := "failed", error := some "Bot URL is required." } now)
          else
            match fetch (moveEndpoint (stripTrailingSlashes rawUrl)) with
            | .failure errorMsg =>
              ({ ok := false, error := some errorMsg },
               updateTestRunResult st runId
                 { status := "failed", error := some errorMsg } now)
            | .response status body elapsedMs =>
              let afterParse : Option Json :=
                if body = "" then some .jnull
                else jsonParse body
              match afterParse with
              | none =>
                ({ ok := false, error := some s!"Non-JSON response ({status})." },
                 updateTestRunResult st runId
                   { status := "failed"
                     error := some s!"Non-JSON response ({status})."
                     httpStatus := some status
                     rawResponse := some (jsSlice body 1000)
                     responseTimeMs := some elapsedMs } now)
              | some data =>
                if ¬ httpOk status then
                  ({ ok := false, error := some s!"HTTP {status}" },
                   updateTestRunResult st runId
                     { status := "failed"
                       error := some s!"HTTP {status}"
                       httpStatus := some status
                       rawResponse := some (jsSlice (jsonStringify data) 1000)
                       responseTimeMs := some elapsedMs } now)
                else
                  let move := jsonGetStr data "move"
                  let shout := jsonGetStr data "shout"
                  let passed : Bool :=
                    match move with
                    | some m => test.expectedSafeMoves.contains m
                    | none => false
                  ({ ok := true, move := move, shout := shout,
                     passed := some passed, responseTimeMs := some elapsedMs },
                   updateTestRunResult st runId
                     { status := "completed"
                       move := move
                       shout := shout
                       passed := some passed
                       httpStatus := some status
                       rawResponse := some (jsSlice (jsonStringify data) 1000)
                       responseTimeMs := some elapsedMs } now)

/-! ### Moderation mutations on tests (from the battlesnake module)

Each mutation first resolves the caller's session token through
`requireUserSession` (modelled below in the auth section), obtaining
`(userId, isAdmin)`; the mutations here take that resolved identity. -/

/-- The identity `requireUserSession` resolves a token to. -/
structure Caller where
  userId : Nat
  isAdmin : Bool
deriving Repr, DecidableEq

/-- The editable fields shared by `updateUserTest` and `adminUpdateTest`. -/
structure TestEditArgs where
  name : String
  description : Option String
  board : Board
  game : Option GameConfig
  turn : Int
  youId : String
  expectedSafeMoves : List String
deriving Repr, DecidableEq

/-- `updateUserTest`: owner edit of an existing test.  Requires
ownership and a `youId` matching a snake on the board; the patch writes
the edited fields and sets `status` back to `"pending"`.  Returns the
updated document. -/
def updateUserTest (tests : List (Nat × Test)) (caller : Caller) (id : Nat)
    (args : TestEditArgs) : Except String Test × List (Nat × Test) :=
  match dbGet tests id with
  | none => (.error "Test not found.", tests)
  | some test =>
    if test.ownerId ≠ some caller.userId then
      (.error "You don't have permission to edit this test.", tests)
    else if ¬ args.board.snakes.any (fun s => s.id = args.youId) then
      (.error "youId must match a snake in the board.", tests)
    else
      let updated :=
        { test with
          name := args.name
          description := args.description
          board := args.board
          game := args.game
          turn := args.turn
          youId := args.youId
          expectedSafeMoves := args.expectedSafeMoves
          status := some "pending" }
      (.ok updated, dbPatch tests id (fun _ => updated))

/-- `adminUpdateTest`: admin edit; same field patch as the owner edit
but without the status reset. -/
def adminUpdateTest (tests : List (Nat × Test)) (caller : Caller) (id : Nat)
    (args : TestEditArgs) : Except String Test × List (Nat × Test) :=
  if ¬ caller.isAdmin then
    (.error "Admin access required.", tests)
  else
    match dbGet tests id with
    | none => (.error "Test not found.", tests)
    | some test =>
      if ¬ args.board.snakes.any (fun s => s.id = args.youId) then
        (.error "youId must match a snake in the board.", tests)
      else
        let updated :=
          { test with
            name := args.name
            description := args.description
            board := args.board
            game := args.game
            turn := args.turn
            youId := args.youId
            expectedSafeMoves := args.expectedSafeMoves }
        (.ok updated, dbPatch tests id (fun _ => updated))

/-- `approveTest`: admin-only; sets status `"approved"`, stamps the
moderation audit fields, and clears `rejectionReason` (patched with
`undefined`).  It does not consult `permaRejected`. -/
def approveTest (tests : List (Nat × Test)) (caller : Caller) (id : Nat)
    (now : Nat) : Except String Test × List (Nat × Test) :=
  if ¬ caller.isAdmin then
    (.error "Admin access required.", tests)
  else
    match dbGet tests id with
    | none => (.error "Test not found.", tests)
    | some test =>
      let updated :=
        { test with
          status := some "approved"
          approvedBy := some caller.userId
          approvedAt := some now
          rejectionReason := none }
      (.ok updated, dbPatch tests id (fun _ => updated))

/-- `rejectTest`: admin-only; sets status `"rejected"` with an optional
reason. -/
def rejectTest (tests : List (Nat × Test)) (caller : Caller) (id : Nat)
    (reason : Option String) : Except String Test × List (Nat × Test) :=
  if ¬ caller.isAdmin then
    (.error "Admin access required.", tests)
  else
    match dbGet tests id with
    | none => (.error "Test not found.", tests)
    | some test =>
      let updated :=
        { test with status := some "rejected", rejectionReason := reason }
      (.ok updated, dbPatch tests id (fun _ => updated))

/-- `permaRejectTest`: admin-only; like `rejectTest` but also sets the
sticky `permaRejected` flag. -/
def permaRejectTest (tests : List (Nat × Test)) (caller : Caller) (id : Nat)
    (reason : Option String) : Except String Test × List (Nat × Test) :=
  if ¬ caller.isAdmin then
    (.error "Admin access required.", tests)
  else
    match dbGet tests id with
    | none => (.error "Test not found.", tests)
    | some test =>
      let updated :=
        { test with
          status := some "rejected"
          rejectionReason := reason
          permaRejected := some true }
      (.ok updated, dbPatch tests id (fun _ => updated))

/-- `resubmitTest`: owner-only; allowed only from `"rejected"` and only
when `permaRejected` is falsy; transitions back to `"pending"` and
clears the rejection reason. -/
def resubmitTest (tests : List (Nat × Test)) (caller : Caller) (id : Nat) :
    Except String Test × List (Nat × Test) :=
  match dbGet tests id with
  | none => (.error "Test not found.", tests)
  | some test =>
    if test.ownerId ≠ some caller.userId then
      (.error "You don't have permission to resubmit this test.", tests)
    else if test.status ≠ some "rejected" then
      (.error "Only rejected tests can be resubmitted.", tests)
    else if test.permaRejected = some true then
      (.error "This test has been permanently rejected and cannot be resubmitted.",
       tests)
    else
      let updated := { test with status := some "pending", rejectionReason := none }
      (.ok updated, dbPatch tests id (fun _ => updated))

/-- `makeTestPrivate`: admin-only; sets status `"private"`. -/
def makeTestPrivate (tests : List (Nat × Test)) (caller : Caller) (id : Nat) :
    Except String Test × List (Nat × Test) :=
  if ¬ caller.isAdmin then
    (.error "Admin access required.", tests)
  else
    match dbGet tests id with
    | none => (.error "Test not found.", tests)
    | some test =>
      let updated := { test with status := some "private" }
      (.ok updated, dbPatch tests id (fun _ => updated))

/-! ### Authentication layer (from `convex/auth.ts` and the admin
session gate of `convex/battlesnake.ts`) -/

def SESSION_TTL_MS : Nat := 24 * 60 * 60 * 1000
def RATE_LIMIT_WINDOW_MS : Nat := 5 * 60 * 1000
def RATE_LIMIT_MAX_ATTEMPTS : Nat := 5

structure UserRec where
  email : String
  emailLower : String
  passwordHash : String
  username : String
  isAdmin : Bool
deriving Repr, DecidableEq

structure UserSession where
  userId : Nat
  token : String
  createdAt : Nat
  expiresAt : Nat
deriving Repr, DecidableEq

structure AdminSession where
  token : String
  createdAt : Nat
  expiresAt : Nat
deriving Repr, DecidableEq

structure RateLimitRec where
  clientId : String
  windowStart : Nat
  attempts : Nat
  blockedUntil : Option Nat
deriving Repr, DecidableEq

/-- The tables the auth layer touches. -/
structure AuthDB where
  users : List (Nat × UserRec)
  userSessions : List (Nat × UserSession)
  adminSessions : List (Nat × AdminSession)
  adminRateLimits : List (Nat × RateLimitRec)
  nextId : Nat
deriving DecidableEq

/-- Index lookup `userSessions.by_token`, `.first()`. -/
def findUserSessionByToken (db : AuthDB) (token : String) :
    Option (Nat × UserSession) :=
  db.userSessions.find? (fun r => r.2.token = token)

/-- Index lookup `adminSessions.by_token`, `.first()`. -/
def findAdminSessionByToken (db : AuthDB) (token : String) :
    Option (Nat × AdminSession) :=
  db.adminSessions.find? (fun r => r.2.token = token)

/-- Index lookup `users.by_emailLower`, `.first()`. -/
def findUserByEmailLower (db : AuthDB) (emailLower : String) :
    Option (Nat × UserRec) :=
  db.users.find? (fun r => r.2.emailLower = emailLower)

/-- Index lookup `adminRateLimits.by_clientId`, `.first()`. -/
def findLimiter (db : AuthDB) (clientId : String) :
    Option (Nat × RateLimitRec) :=
  db.adminRateLimits.find? (fun r => r.2.clientId = clientId)

/-- `requireUserSession`: resolve a token to `(userId, isAdmin)` or fail.
The database is threaded through unchanged: the source performs no
write on any path of this gate. -/
def requireUserSession (db : AuthDB) (token : String) (now : Nat) :
    Except String (Nat × Bool) × AuthDB :=
  match findUserSessionByToken db token with
  | none => (.error "Session invalid. Please log in again.", db)
  | some (_, s) =>
    if s.expiresAt < now then
      (.error "Session expired. Please log in again.", db)
    else
      match dbGet db.users s.userId with
      | none => (.error "User not found. Please log in again.", db)
      | some u => (.ok (s.userId, u.isAdmin), db)

/-- `getCurrentUser`: the query variant of the session gate; returns the
resolved user or `none` (also on a missing or expired session).  Being a
query, it cannot write. -/
def getCurrentUser (db : AuthDB) (token : Option String) (now : Nat) :
    Option (Nat × UserRec) :=
  match token with
  | none => none
  | some t =>
    match findUserSessionByToken db t with
    | none => none
    | some (_, s) =>
      if s.expiresAt < now then none
      else
        match dbGet db.users s.userId with
        | none => none
        | some u => some (s.userId, u)

/-- `requireAdminSession` (battlesnake module): resolve an admin token;
an expired session is deleted as part of the failing access. -/
def requireAdminSession (db : AuthDB) (token : String) (now : Nat) :
    Except String Unit × AuthDB :=
  match findAdminSessionByToken db token with
  | none => (.error "Admin session invalid. Sign in again.", db)
  | some (sid, s) =>
    if s.expiresAt < now then
      (.error "Admin session expired. Sign in again.",
       { db with adminSessions := dbDelete db.adminSessions sid })
    else (.ok (), db)

/-- `checkRateLimit`: blocked (with `retryAt`) while `blockedUntil` lies
in the future. -/
def checkRateLimit (db : AuthDB) (clientId : String) (now : Nat) : Option Nat :=
  match findLimiter db clientId with
  | some (_, lim) =>
    match lim.blockedUntil with
    | some b => if b > now then some b else none
    | none => none
  | none => none

/-- `recordFailedAttempt`: fixed-window failure counter.  A failure
inside the current window increments `attempts`, a failure after the
window expired restarts the window at count 1; reaching the threshold
sets `blockedUntil = now + window`. -/
def recordFailedAttempt (db : AuthDB) (clientId : String) (now : Nat) : AuthDB :=
  let limiter := findLimiter db clientId
  let windowStart := match limiter with
    | some (_, l) => l.windowStart
    | none => now
  let withinWindow := now - windowStart < RATE_LIMIT_WINDOW_MS
  let attempts := if withinWindow then
      (match limiter with | some (_, l) => l.attempts | none => 0)
    else 0
  let nextAttempts := attempts + 1
  let blockedUntil := if nextAttempts ≥ RATE_LIMIT_MAX_ATTEMPTS then
      some (now + RATE_LIMIT_WINDOW_MS)
    else none
  match limiter with
  | some (lid, l) =>
    { db with adminRateLimits := dbPatch db.adminRateLimits lid (fun _ =>
        { l with
          windowStart := if withinWindow then windowStart else now
          attempts := nextAttempts
          blockedUntil := blockedUntil }) }
  | none =>
    { db with
      adminRateLimits := dbInsert db.adminRateLimits db.nextId
        { clientId := clientId, windowStart := now, attempts := nextAttempts,
          blockedUntil := blockedUntil }
      nextId := db.nextId + 1 }

/-- `resetRateLimit`: a successful auth restarts the window with count 0
and clears `blockedUntil`. -/
def resetRateLimit (db : AuthDB) (clientId : String) (now : Nat) : AuthDB :=
  match findLimiter db clientId with
  | some (lid, l) =>
    { db with adminRateLimits := dbPatch db.adminRateLimits lid (fun _ =>
        { l with windowStart := now, attempts := 0, blockedUntil := none }) }
  | none => db

/-- Value returned by the `login` mutation. -/
structure LoginResult where
  ok : Bool
  error : Option String := none
  retryAt : Option Nat := none
  token : Option String := none
deriving Repr, DecidableEq

/-- `login`: rate-limit gate first; then user lookup by lowercased
trimmed email; then the bcrypt comparison (`compareHash`, an external
collaborator); a failure on either of the last two records a failed
attempt, and success resets the limiter and inserts a session carrying
the freshly generated `newToken`. -/
def login (compareHash : String → String → Bool) (db : AuthDB)
    (email password clientId : String) (now : Nat) (newToken : String) :
    LoginResult × AuthDB :=
  match checkRateLimit db clientId now with
  | some retryAt =>
    ({ ok := false, error := some "Too many attempts. Try again later.",
       retryAt := some retryAt }, db)
  | none =>
    let emailLower := jsTrim (jsToLower email)
    match findUserByEmailLower db emailLower with
    | none =>
      ({ ok := false, error := some "Invalid email or password." },
       recordFailedAttempt db clientId now)
    | some (uid, user) =>
      if ¬ compareHash password user.passwordHash then
        ({ ok := false, error := some "Invalid email or password." },
         recordFailedAttempt db clientId now)
      else
        let db1 := resetRateLimit db clientId now
        ({ ok := true, token := some newToken },
         { db1 with
           userSessions := dbInsert db1.userSessions db1.nextId
             { userId := uid, token := newToken, createdAt := now,
               expiresAt := now + SESSION_TTL_MS }
           nextId := db1.nextId + 1 })

/-! ### Concrete sample data (used to evaluate the theorems on closed
inputs) -/

def sampleSnake : Snake :=
  { id := "you", name := "snek", health := 100, body := [⟨1, 1⟩],
    head := ⟨1, 1⟩, length := 1 }

def sampleBoard : Board :=
  { height := 11, width := 11, food := [], hazards := [],
    snakes := [sampleSnake] }

def sampleTest : Test :=
  { name := "corner", description := none, board := sampleBoard, game := none,
    turn := 3, youId := "you", expectedSafeMoves := ["up", "left"],
    createdAt := 0, ownerId := some 1, status := some "approved",
    approvedBy := none, approvedAt := none, rejectionReason := none,
    permaRejected := none }

def sampleRun : TestRun :=
  { testId := 0, userId := 1, botUrl := "https://x.com", status := "running",
    move := none, shout := none, passed := none, error := none,
    httpStatus := none, rawResponse := none, responseTimeMs := none,
    startedAt := 0, completedAt := none }

def sampleState : RunState :=
  { tests := [(0, sampleTest)], runs := [(0, sampleRun)] }

def sampleRunBlankUrl : TestRun :=
  { sampleRun with botUrl := "   " }

def sampleStateBlankUrl : RunState :=
  { tests := [(0, sampleTest)], runs := [(0, sampleRunBlankUrl)] }

/-- The JSON object with field `move` set to the string `up`. -/
def sampleData : Json := .jobj [("move", Json.jstr "up")]

/-- A concrete stand-in for the platform JSON parser: parses the one
body the sample bot sends and rejects everything else. -/
def sampleParse : String → Option Json :=
  fun s => if s = "move-up" then some sampleData else none

def sampleStringify : Json → String := fun _ => "raw"

def fetchOk : String → FetchOutcome := fun _ => .response 200 "move-up" 42

def fetchBad : String → FetchOutcome := fun _ => .response 404 "bogus" 42

def fetchEmpty : String → FetchOutcome := fun _ => .response 200 "" 7

def sampleOwner : Caller := { userId := 1, isAdmin := false }

def sampleAdminCaller : Caller := { userId := 9, isAdmin := true }

def sampleRejectedTest : Test :=
  { sampleTest with
    status := some "rejected", rejectionReason := some "weak",
    permaRejected := none }

def samplePermaTest : Test :=
  { sampleRejectedTest with permaRejected := some true }

def sampleEditArgs : TestEditArgs :=
  { name := "corner v2", description := some "edited", board := sampleBoard,
    game := none, turn := 4, youId := "you", expectedSafeMoves := ["up"] }

/-- The `permaRejected` flag of the test stored under `j` (when present). -/
def permaAt (tests : List (Nat × Test)) (j : Nat) : Option (Option Bool) :=
  (dbGet tests j).map Test.permaRejected

/-- `Except` success discriminator. -/
def exceptOk {ε α : Type} : Except ε α → Bool
  | .ok _ => true
  | .error _ => false

def sampleUser : UserRec :=
  { email := "al@example.com", emailLower := "al@example.com",
    passwordHash := "hash", username := "al", isAdmin := false }

/-- A store holding one expired user session and one expired admin
session for `sampleUser`. -/
def expiredSessionDB : AuthDB :=
  { users := [(0, sampleUser)],
    userSessions := [(5, { userId := 0, token := "tok", createdAt := 0,
                           expiresAt := 10 })],
    adminSessions := [(6, { token := "atok", createdAt := 0,
                            expiresAt := 10 })],
    adminRateLimits := [], nextId := 7 }

/-- A store whose rate limiter for client "c1" is currently blocking. -/
def blockedDB : AuthDB :=
  { users := [], userSessions := [], adminSessions := [],
    adminRateLimits := [(3, { clientId := "c1", windowStart := 0,
                              attempts := 5, blockedUntil := some 1000 })],
    nextId := 4 }

/-- An empty store: no users, no sessions, no limiter windows. -/
def freshDB : AuthDB :=
  { users := [], userSessions := [], adminSessions := [],
    adminRateLimits := [], nextId := 0 }

/-- A store where "c1" has four in-window failures and sampleUser
exists, for exercising the reset path. -/
def fourFailDB : AuthDB :=
  { users := [(0, sampleUser)], userSessions := [], adminSessions := [],
    adminRateLimits := [(3, { clientId := "c1", windowStart := 100,
                              attempts := 4, blockedUntil := none })],
    nextId := 4 }

/-! ### Store lemmas -/

theorem dbGet_cons {α : Type} (k : Nat) (v : α) (rows : List (Nat × α))
    (j : Nat) :
    dbGet ((k, v) :: rows) j = if k = j then some v else dbGet rows j := by
  by_cases h : k = j
  · simp [dbGet, List.find?, h]
  · simp [dbGet, List.find?, h]

theorem dbPatch_cons {α : Type} (k : Nat) (v : α) (rows : List (Nat × α))
    (id : Nat) (f : α → α) :
    dbPatch ((k, v) :: rows) id f =
      (if k = id then (k, f v) else (k, v)) :: dbPatch rows id f := by
  by_cases h : k = id <;> simp [dbPatch, h]

theorem dbGet_dbPatch {α : Type} (rows : List (Nat × α)) (id : Nat)
    (f : α → α) (j : Nat) :
    dbGet (dbPatch rows id f) j =
      if j = id then (dbGet rows j).map f else dbGet rows j := by
  induction rows with
  | nil => simp [dbGet, dbPatch]
  | cons r rest ih =>
    rcases r with ⟨k, v⟩
    rw [dbPatch_cons]
    by_cases hk : k = id
    · rw [if_pos hk]
      simp only [dbGet_cons]
      by_cases hj : k = j
      · subst hj
        subst hk
        simp
      · simp [hj, ih]
    · rw [if_neg hk]
      simp only [dbGet_cons]
      by_cases hj : k = j
      · subst hj
        simp [hk]
      · simp [hj, ih]

theorem dbGet_dbPatch_self {α : Type} (rows : List (Nat × α)) (id : Nat)
    (f : α → α) (v : α) (h : dbGet rows id = some v) :
    dbGet (dbPatch rows id f) id = some (f v) := by
  rw [dbGet_dbPatch]
  simp [h]

theorem dbGet_updateTestRunResult (st : RunState) (runId : Nat)
    (args : RunResultArgs) (now : Nat) (run : TestRun)
    (h : dbGet st.runs runId = some run) :
    dbGet (updateTestRunResult st runId args now).runs runId =
      some { run with
        status := args.status
        move := args.move
        shout := args.shout
        passed := args.passed
        error := args.error
        httpStatus := args.httpStatus
        rawResponse := args.rawResponse
        responseTimeMs := args.responseTimeMs
        completedAt := some now } := by
  have h2 := dbGet_dbPatch_self st.runs runId (fun r =>
    { r with
      status := args.status
      move := args.move
      shout := args.shout
      passed := args.passed
      error := args.error
      httpStatus := args.httpStatus
      rawResponse := args.rawResponse
      responseTimeMs := args.responseTimeMs
      completedAt := some now }) run h
  simpa [updateTestRunResult] using h2

theorem list_contains_iff_mem (l : List String) (a : String) :
    l.contains a = true ↔ a ∈ l := by
  induction l with
  | nil => simp
  | cons x xs ih => simp [List.contains] at ih ⊢

/-! ### Claims about the run-execution pipeline -/

/-- C3: `executeTestRun` normalizes the bot URL by trimming whitespace,
failing the run when the trimmed URL is empty, stripping all trailing
slashes, and appending `/move` unless the stripped URL already ends with
`/move`; the HTTP call goes to exactly that endpoint.  In particular
`"https://x.com"` is called at `"https://x.com/move"` and
`"https://x.com/move/"` at `"https://x.com/move"`. -/
theorem executeTestRun_url_normalization
    (jsonParse : String → Option Json) (jsonStringify : Json → String)
    (st : RunState) (runId : Nat) (now : Nat) :
    (∀ fetch run test, dbGet st.runs runId = some run → run.status = "running" →
      dbGet st.tests run.testId = some test →
      (test.board.snakes.find? (fun s => s.id = test.youId)).isSome →
      jsTrim run.botUrl = "" →
      executeTestRun jsonParse jsonStringify fetch st runId now =
        ({ ok := false, error := some "Bot URL is required." },
         updateTestRunResult st runId
           { status := "failed", error := some "Bot URL is required." } now)) ∧
    (∀ fetch₁ fetch₂ run, dbGet st.runs runId = some run →
      fetch₁ (botEndpoint run.botUrl) = fetch₂ (botEndpoint run.botUrl) →
      executeTestRun jsonParse jsonStringify fetch₁ st runId now =
        executeTestRun jsonParse jsonStringify fetch₂ st runId now) ∧
    (∀ url : String, ¬ jsEndsWith (stripTrailingSlashes (jsTrim url)) "/move" = true →
      botEndpoint url = stripTrailingSlashes (jsTrim url) ++ "/move") ∧
    (∀ url : String, jsEndsWith (stripTrailingSlashes (jsTrim url)) "/move" = true →
      botEndpoint url = stripTrailingSlashes (jsTrim url)) ∧
    botEndpoint "https://x.com" = "https://x.com/move" ∧
    botEndpoint "https://x.com/move/" = "https://x.com/move" := by
  refine ⟨?_, ?_, ?_, ?_, ?_, ?_⟩
  · intro fetch run test hrun hstatus htest hyou hurl
    rcases Option.isSome_iff_exists.mp hyou with ⟨you, hyouEq⟩
    simp [executeTestRun, hrun, hstatus, htest, hyouEq, hurl]
  · intro fetch₁ fetch₂ run hrun hfetch
    simp only [botEndpoint] at hfetch
    simp only [executeTestRun, hrun]
    split
    · rfl
    · split
      · rfl
      · split
        · rfl
        · split
          · rfl
          · rw [hfetch]
  · intro url h
    simp [botEndpoint, moveEndpoint, h]
  · intro url h
    simp [botEndpoint, moveEndpoint, h]
  · decide
  · decide

/-- C2: when the run record is missing or not in `running` state,
`executeTestRun` returns an error and leaves the state untouched; a
state change (the terminal patch) only ever happens when the run was
observed in `running` state. -/
theorem executeTestRun_idempotency_guard
    (jsonParse : String → Option Json) (jsonStringify : Json → String)
    (fetch : String → FetchOutcome) (st : RunState) (runId : Nat) (now : Nat) :
    (dbGet st.runs runId = none →
      executeTestRun jsonParse jsonStringify fetch st runId now =
        ({ ok := false, error := some "Test run not found." }, st)) ∧
    (∀ run, dbGet st.runs runId = some run → run.status ≠ "running" →
      executeTestRun jsonParse jsonStringify fetch st runId now =
        ({ ok := false, error := some "Test run is not in running state." }, st)) ∧
    ((executeTestRun jsonParse jsonStringify fetch st runId now).2 ≠ st →
      ∃ run, dbGet st.runs runId = some run ∧ run.status = "running") := by
  refine ⟨?_, ?_, ?_⟩
  · intro h
    simp [executeTestRun, h]
  · intro run hrun hstatus
    simp [executeTestRun, hrun, hstatus]
  · intro hchanged
    rcases hrun : dbGet st.runs runId with _ | run
    · exfalso
      apply hchanged
      simp [executeTestRun, hrun]
    · by_cases hstatus : run.status = "running"
      · exact ⟨run, rfl, hstatus⟩

      · exfalso
        apply hchanged
        simp [executeTestRun, hrun, hstatus]

/-- C2 witness: on an empty store the action reports "Test run not
found." and changes nothing. -/
theorem executeTestRun_idempotency_guard_witness :
    executeTestRun sampleParse sampleStringify fetchOk
        { tests := [], runs := [] } 0 0 =
      ({ ok := false, error := some "Test run not found." },
       { tests := [], runs := [] }) :=
  (executeTestRun_idempotency_guard sampleParse sampleStringify fetchOk
    { tests := [], runs := [] } 0 0).1 rfl

/-- C3 witness: a whitespace bot URL fails the run, and the sample URLs
normalize as the claim says. -/
theorem executeTestRun_url_normalization_witness :
    executeTestRun sampleParse sampleStringify fetchOk sampleStateBlankUrl 0 0 =
      ({ ok := false, error := some "Bot URL is required." },
       updateTestRunResult sampleStateBlankUrl 0
         { status := "failed", error := some "Bot URL is required." } 0) ∧
    botEndpoint "https://x.com" = "https://x.com/move" ∧
    botEndpoint "https://x.com/move/" = "https://x.com/move" := by
  have h := executeTestRun_url_normalization sampleParse sampleStringify
    sampleStateBlankUrl 0 0
  exact ⟨h.1 fetchOk sampleRunBlankUrl sampleTest rfl rfl rfl (by decide)
      (by decide),
    h.2.2.2.2.1, h.2.2.2.2.2⟩

/-- C1: in a completed run (2xx response with a JSON body), the recorded
`passed` flag is true iff the extracted `move` is a string and an
element of the test's `expectedSafeMoves` under exact string equality;
a missing or non-string `move` field normalizes to `none` (through
`jsonGetStr`) and fails the test. -/
theorem executeTestRun_passed_iff
    (jsonParse : String → Option Json) (jsonStringify : Json → String)
    (fetch : String → FetchOutcome) (st : RunState) (runId : Nat) (now : Nat)
    (run : TestRun) (test : Test) (status : Nat) (body : String)
    (elapsed : Nat) (data : Json)
    (hrun : dbGet st.runs runId = some run)
    (hstatus : run.status = "running")
    (htest : dbGet st.tests run.testId = some test)
    (hyou : (test.board.snakes.find? (fun s => s.id = test.youId)).isSome)
    (hurl : jsTrim run.botUrl ≠ "")
    (hfetch : fetch (botEndpoint run.botUrl) = .response status body elapsed)
    (hok : httpOk status = true)
    (hbody : body ≠ "")
    (hparse : jsonParse body = some data) :
    ∃ run', dbGet (executeTestRun jsonParse jsonStringify fetch
        st runId now).2.runs runId = some run' ∧
      run'.status = "completed" ∧
      run'.move = jsonGetStr data "move" ∧
      run'.passed = some (match jsonGetStr data "move" with
        | some m => test.expectedSafeMoves.contains m
        | none => false) ∧
      (run'.passed = some true ↔
        ∃ m, jsonGetStr data "move" = some m ∧ m ∈ test.expectedSafeMoves) := by
  rcases Option.isSome_iff_exists.mp hyou with ⟨you, hyouEq⟩
  have hfetch' : fetch (moveEndpoint (stripTrailingSlashes
      (jsTrim run.botUrl))) = .response status body elapsed := by
    simpa [botEndpoint] using hfetch
  have hstep : executeTestRun jsonParse jsonStringify fetch st runId now =
      ({ ok := true, move := jsonGetStr data "move",
         shout := jsonGetStr data "shout",
         passed := some (match jsonGetStr data "move" with
           | some m => test.expectedSafeMoves.contains m
           | none => false),
         responseTimeMs := some elapsed },
       updateTestRunResult st runId
         { status := "completed"
           move := jsonGetStr data "move"
           shout := jsonGetStr data "shout"
           passed := some (match jsonGetStr data "move" with
             | some m => test.expectedSafeMoves.contains m
             | none => false)
           httpStatus := some status
           rawResponse := some (jsSlice (jsonStringify data) 1000)
           responseTimeMs := some elapsed } now) := by
    simp [executeTestRun, hrun, hstatus, htest, hyouEq, hurl, hfetch',
      hbody, hparse, hok]
  rw [hstep]
  refine ⟨_, dbGet_updateTestRunResult st runId _ now run hrun,
    rfl, rfl, rfl, ?_⟩
  cases hm : jsonGetStr data "move" with
  | none => simp [hm]
  | some m =>
    simp only [hm, Option.some.injEq]
    constructor
    · intro hcontains
      exact ⟨m, rfl, (list_contains_iff_mem _ _).mp hcontains⟩
    · rintro ⟨m', hm', hmem⟩
      cases hm'
      exact (list_contains_iff_mem _ _).mpr hmem

/-- C1 witness: the sample bot answers `move = "up"`, which is among the
expected safe moves, so the recorded run passes. -/
theorem executeTestRun_passed_iff_witness :
    ∃ run', dbGet (executeTestRun sampleParse sampleStringify fetchOk
        sampleState 0 5).2.runs 0 = some run' ∧
      run'.status = "completed" ∧
      run'.move = jsonGetStr sampleData "move" ∧
      run'.passed = some (match jsonGetStr sampleData "move" with
        | some m => sampleTest.expectedSafeMoves.contains m
        | none => false) ∧
      (run'.passed = some true ↔
        ∃ m, jsonGetStr sampleData "move" = some m ∧
          m ∈ sampleTest.expectedSafeMoves) :=
  executeTestRun_passed_iff sampleParse sampleStringify fetchOk sampleState
    0 5 sampleRun sampleTest 200 "move-up" 42 sampleData rfl rfl rfl
    (by decide) (by decide) rfl (by decide) (by decide) rfl

/-- C4: a non-empty response body that fails JSON parsing yields a
`failed` terminal record with error message "Non-JSON response
(status)." carrying the HTTP status, the raw text truncated to 1000
characters, and the response time. -/
theorem executeTestRun_non_json_body
    (jsonParse : String → Option Json) (jsonStringify : Json → String)
    (fetch : String → FetchOutcome) (st : RunState) (runId : Nat) (now : Nat)
    (run : TestRun) (test : Test) (status : Nat) (body : String)
    (elapsed : Nat)
    (hrun : dbGet st.runs runId = some run)
    (hstatus : run.status = "running")
    (htest : dbGet st.tests run.testId = some test)
    (hyou : (test.board.snakes.find? (fun s => s.id = test.youId)).isSome)
    (hurl : jsTrim run.botUrl ≠ "")
    (hfetch : fetch (botEndpoint run.botUrl) = .response status body elapsed)
    (hbody : body ≠ "")
    (hparse : jsonParse body = none) :
    (executeTestRun jsonParse jsonStringify fetch st runId now).1 =
      { ok := false, error := some s!"Non-JSON response ({status})." } ∧
    ∃ run', dbGet (executeTestRun jsonParse jsonStringify fetch
        st runId now).2.runs runId = some run' ∧
      run'.status = "failed" ∧
      run'.error = some s!"Non-JSON response ({status})." ∧
      run'.rawResponse = some (jsSlice body 1000) ∧
      run'.httpStatus = some status ∧
      run'.responseTimeMs = some elapsed := by
  rcases Option.isSome_iff_exists.mp hyou with ⟨you, hyouEq⟩
  have hfetch' : fetch (moveEndpoint (stripTrailingSlashes
      (jsTrim run.botUrl))) = .response status body elapsed := by
    simpa [botEndpoint] using hfetch
  have hstep : executeTestRun jsonParse jsonStringify fetch st runId now =
      ({ ok := false, error := some s!"Non-JSON response ({status})." },
       updateTestRunResult st runId
         { status := "failed"
           error := some s!"Non-JSON response ({status})."
           httpStatus := some status
           rawResponse := some (jsSlice body 1000)
           responseTimeMs := some elapsed } now) := by
    simp [executeTestRun, hrun, hstatus, htest, hyouEq, hurl, hfetch',
      hbody, hparse]
  rw [hstep]
  exact ⟨rfl, _, dbGet_updateTestRunResult st runId _ now run hrun,
    rfl, rfl, rfl, rfl, rfl⟩

/-- C4 witness: the sample bot answers 404 with the unparsable body
"bogus"; the run fails with "Non-JSON response (404)." and keeps the raw
text. -/
theorem executeTestRun_non_json_body_witness :
    (executeTestRun sampleParse sampleStringify fetchBad
        sampleState 0 5).1 =
      { ok := false, error := some "Non-JSON response (404)." } ∧
    ∃ run', dbGet (executeTestRun sampleParse sampleStringify fetchBad
        sampleState 0 5).2.runs 0 = some run' ∧
      run'.status = "failed" ∧
      run'.error = some "Non-JSON response (404)." ∧
      run'.rawResponse = some (jsSlice "bogus" 1000) ∧
      run'.httpStatus = some 404 ∧
      run'.responseTimeMs = some 42 :=
  executeTestRun_non_json_body sampleParse sampleStringify fetchBad
    sampleState 0 5 sampleRun sampleTest 404 "bogus" 42 rfl rfl rfl
    (by decide) (by decide) rfl (by decide) rfl

/-- C10: a 2xx response with an empty body is not treated as a parse
failure: the run completes (for every JSON parser, since parsing is
skipped) with no move, no shout, and `passed = false`. -/
theorem executeTestRun_empty_body_completes
    (jsonParse : String → Option Json) (jsonStringify : Json → String)
    (fetch : String → FetchOutcome) (st : RunState) (runId : Nat) (now : Nat)
    (run : TestRun) (test : Test) (status : Nat) (elapsed : Nat)
    (hrun : dbGet st.runs runId = some run)
    (hstatus : run.status = "running")
    (htest : dbGet st.tests run.testId = some test)
    (hyou : (test.board.snakes.find? (fun s => s.id = test.youId)).isSome)
    (hurl : jsTrim run.botUrl ≠ "")
    (hfetch : fetch (botEndpoint run.botUrl) = .response status "" elapsed)
    (hok : httpOk status = true) :
    (executeTestRun jsonParse jsonStringify fetch st runId now).1 =
      { ok := true, move := none, shout := none, passed := some false,
        responseTimeMs := some elapsed } ∧
    ∃ run', dbGet (executeTestRun jsonParse jsonStringify fetch
        st runId now).2.runs runId = some run' ∧
      run'.status = "completed" ∧
      run'.move = none ∧
      run'.shout = none ∧
      run'.passed = some false := by
  rcases Option.isSome_iff_exists.mp hyou with ⟨you, hyouEq⟩
  have hfetch' : fetch (moveEndpoint (stripTrailingSlashes
      (jsTrim run.botUrl))) = .response status "" elapsed := by
    simpa [botEndpoint] using hfetch
  have hstep : executeTestRun jsonParse jsonStringify fetch st runId now =
      ({ ok := true, move := none, shout := none, passed := some false,
         responseTimeMs := some elapsed },
       updateTestRunResult st runId
         { status := "completed"
           move := none
           shout := none
           passed := some false
           httpStatus := some status
           rawResponse := some (jsSlice (jsonStringify .jnull) 1000)
           responseTimeMs := some elapsed } now) := by
    simp [executeTestRun, hrun, hstatus, htest, hyouEq, hurl, hfetch',
      hok, jsonGetStr]
  rw [hstep]
  exact ⟨rfl, _, dbGet_updateTestRunResult st runId _ now run hrun,
    rfl, rfl, rfl, rfl⟩

/-- C10 witness: the sample bot answers 200 with an empty body; the run
completes with `passed = false` even though the sample parser rejects
the empty string. -/
theorem executeTestRun_empty_body_completes_witness :
    (executeTestRun sampleParse sampleStringify fetchEmpty
        sampleState 0 5).1 =
      { ok := true, move := none, shout := none, passed := some false,
        responseTimeMs := some 7 } ∧
    ∃ run', dbGet (executeTestRun sampleParse sampleStringify fetchEmpty
        sampleState 0 5).2.runs 0 = some run' ∧
      run'.status = "completed" ∧
      run'.move = none ∧
      run'.shout = none ∧
      run'.passed = some false :=
  executeTestRun_empty_body_completes sampleParse sampleStringify fetchEmpty
    sampleState 0 5 sampleRun sampleTest 200 7 rfl rfl rfl
    (by decide) (by decide) rfl rfl

/-- Patching a stored test with an update that keeps `permaRejected`
leaves `permaAt` unchanged at every id. -/
theorem permaAt_dbPatch (tests : List (Nat × Test)) (id : Nat)
    (test updated : Test) (hget : dbGet tests id = some test)
    (hperma : updated.permaRejected = test.permaRejected) (j : Nat) :
    permaAt (dbPatch tests id (fun _ => updated)) j = permaAt tests j := by
  unfold permaAt
  rw [dbGet_dbPatch]
  by_cases hj : j = id
  · subst hj
    rw [if_pos rfl, hget]
    simp [hperma]
  · rw [if_neg hj]

/-- C5: `resubmitTest` succeeds exactly when the caller owns the test,
the status is "rejected", and `permaRejected` is falsy; success patches
the test to "pending" and clears the rejection reason; a perma-rejected
test is never modified, and when it sits in "rejected" state the error
says it cannot be resubmitted. -/
theorem resubmitTest_policy (tests : List (Nat × Test)) (caller : Caller)
    (id : Nat) (test : Test) (hget : dbGet tests id = some test) :
    (exceptOk (resubmitTest tests caller id).1 = true ↔
      test.ownerId = some caller.userId ∧ test.status = some "rejected" ∧
        test.permaRejected ≠ some true) ∧
    (test.ownerId = some caller.userId → test.status = some "rejected" →
      test.permaRejected ≠ some true →
      resubmitTest tests caller id =
        (.ok { test with status := some "pending", rejectionReason := none },
         dbPatch tests id (fun _ =>
           { test with status := some "pending", rejectionReason := none }))) ∧
    (test.permaRejected = some true →
      (resubmitTest tests caller id).2 = tests ∧
        ∃ e, (resubmitTest tests caller id).1 = .error e) ∧
    (test.ownerId = some caller.userId → test.status = some "rejected" →
      test.permaRejected = some true →
      (resubmitTest tests caller id).1 =
        .error "This test has been permanently rejected and cannot be resubmitted.") := by
  refine ⟨?_, ?_, ?_, ?_⟩
  · by_cases hown : test.ownerId = some caller.userId
    · by_cases hstat : test.status = some "rejected"
      · by_cases hperma : test.permaRejected = some true
        · simp [resubmitTest, hget, hown, hstat, hperma, exceptOk]
        · simp [resubmitTest, hget, hown, hstat, hperma, exceptOk]
      · simp [resubmitTest, hget, hown, hstat, exceptOk]
    · simp [resubmitTest, hget, hown, exceptOk]
  · intro hown hstat hperma
    simp [resubmitTest, hget, hown, hstat, hperma]
  · intro hperma
    by_cases hown : test.ownerId = some caller.userId
    · by_cases hstat : test.status = some "rejected"
      · simp [resubmitTest, hget, hown, hstat, hperma]
      · simp [resubmitTest, hget, hown, hstat]
    · simp [resubmitTest, hget, hown]
  · intro hown hstat hperma
    simp [resubmitTest, hget, hown, hstat, hperma]

/-- C5 witness: the owner resubmits a plainly rejected sample test
(success, reason cleared) and a perma-rejected one (policy error). -/
theorem resubmitTest_policy_witness :
    resubmitTest [(0, sampleRejectedTest)] sampleOwner 0 =
      (.ok { sampleRejectedTest with
             status := some "pending", rejectionReason := none },
       dbPatch [(0, sampleRejectedTest)] 0 (fun _ =>
         { sampleRejectedTest with
           status := some "pending", rejectionReason := none })) ∧
    (resubmitTest [(0, samplePermaTest)] sampleOwner 0).1 =
      .error "This test has been permanently rejected and cannot be resubmitted." :=
  ⟨(resubmitTest_policy [(0, sampleRejectedTest)] sampleOwner 0
      sampleRejectedTest rfl).2.1 rfl rfl (by decide),
   (resubmitTest_policy [(0, samplePermaTest)] sampleOwner 0
      samplePermaTest rfl).2.2.2 rfl rfl rfl⟩

/-- C6: `permaRejected` is sticky — none of the six mutations
(`updateUserTest`, `adminUpdateTest`, `approveTest`, `rejectTest`,
`resubmitTest`, `makeTestPrivate`) ever changes the stored
`permaRejected` value of any test; yet `approveTest` does not check the
flag, so an admin can still move a perma-rejected test to "approved". -/
theorem permaRejected_sticky (tests : List (Nat × Test)) (caller : Caller)
    (id : Nat) (args : TestEditArgs) (reason : Option String) (now : Nat)
    (j : Nat) :
    permaAt (updateUserTest tests caller id args).2 j = permaAt tests j ∧
    permaAt (adminUpdateTest tests caller id args).2 j = permaAt tests j ∧
    permaAt (approveTest tests caller id now).2 j = permaAt tests j ∧
    permaAt (rejectTest tests caller id reason).2 j = permaAt tests j ∧
    permaAt (resubmitTest tests caller id).2 j = permaAt tests j ∧
    permaAt (makeTestPrivate tests caller id).2 j = permaAt tests j ∧
    (∀ test, caller.isAdmin = true → dbGet tests id = some test →
      test.permaRejected = some true →
      (approveTest tests caller id now).1 =
        .ok { test with
              status := some "approved", approvedBy := some caller.userId,
              approvedAt := some now, rejectionReason := none }) := by
  refine ⟨?_, ?_, ?_, ?_, ?_, ?_, ?_⟩
  · rcases hget : dbGet tests id with _ | test
    · simp [updateUserTest, hget]
    · by_cases hown : test.ownerId = some caller.userId
      · by_cases hyou : args.board.snakes.any (fun s => s.id = args.youId)
        · have hres : (updateUserTest tests caller id args).2 =
              dbPatch tests id (fun _ =>
                { test with
                  name := args.name
                  description := args.description
                  board := args.board
                  game := args.game
                  turn := args.turn
                  youId := args.youId
                  expectedSafeMoves := args.expectedSafeMoves
                  status := some "pending" }) := by
            simp [updateUserTest, hget, hown, hyou]
          rw [hres]
          refine permaAt_dbPatch tests id test _ hget ?_ j
          rfl
        · simp [updateUserTest, hget, hown, hyou]
      · simp [updateUserTest, hget, hown]
  · by_cases hadm : caller.isAdmin
    · rcases hget : dbGet tests id with _ | test
      · simp [adminUpdateTest, hget, hadm]
      · by_cases hyou : args.board.snakes.any (fun s => s.id = args.youId)
        · have hres : (adminUpdateTest tests caller id args).2 =
              dbPatch tests id (fun _ =>
                { test with
                  name := args.name
                  description := args.description
                  board := args.board
                  game := args.game
                  turn := args.turn
                  youId := args.youId
                  expectedSafeMoves := args.expectedSafeMoves }) := by
            simp [adminUpdateTest, hget, hadm, hyou]
          rw [hres]
          refine permaAt_dbPatch tests id test _ hget ?_ j
          rfl
        · simp [adminUpdateTest, hget, hadm, hyou]
    · simp [adminUpdateTest, hadm]
  · by_cases hadm : caller.isAdmin
    · rcases hget : dbGet tests id with _ | test
      · simp [approveTest, hget, hadm]
      · have hres : (approveTest tests caller id now).2 =
            dbPatch tests id (fun _ =>
              { test with
                status := some "approved"
                approvedBy := some caller.userId
                approvedAt := some now
                rejectionReason := none }) := by
          simp [approveTest, hget, hadm]
        rw [hres]
        refine permaAt_dbPatch tests id test _ hget ?_ j
        rfl
    · simp [approveTest, hadm]
  · by_cases hadm : caller.isAdmin
    · rcases hget : dbGet tests id with _ | test
      · simp [rejectTest, hget, hadm]
      · have hres : (rejectTest tests caller id reason).2 =
            dbPatch tests id (fun _ =>
              { test with
                status := some "rejected", rejectionReason := reason }) := by
          simp [rejectTest, hget, hadm]
        rw [hres]
        refine permaAt_dbPatch tests id test _ hget ?_ j
        rfl
    · simp [rejectTest, hadm]
  · rcases hget : dbGet tests id with _ | test
    · simp [resubmitTest, hget]
    · by_cases hown : test.ownerId = some caller.userId
      · by_cases hstat : test.status = some "rejected"
        · by_cases hperma : test.permaRejected = some true
          · simp [resubmitTest, hget, hown, hstat, hperma]
          · have hres : (resubmitTest tests caller id).2 =
                dbPatch tests id (fun _ =>
                  { test with
                    status := some "pending", rejectionReason := none }) := by
              simp [resubmitTest, hget, hown, hstat, hperma]
            rw [hres]
            refine permaAt_dbPatch tests id test _ hget ?_ j
            rfl
        · simp [resubmitTest, hget, hown, hstat]
      · simp [resubmitTest, hget, hown]
  · by_cases hadm : caller.isAdmin
    · rcases hget : dbGet tests id with _ | test
      · simp [makeTestPrivate, hget, hadm]
      · have hres : (makeTestPrivate tests caller id).2 =
            dbPatch tests id (fun _ =>
              { test with status := some "private" }) := by
          simp [makeTestPrivate, hget, hadm]
        rw [hres]
        refine permaAt_dbPatch tests id test _ hget ?_ j
        rfl
    · simp [makeTestPrivate, hadm]
  · intro test hadm hget hperma
    simp [approveTest, hget, hadm]

/-- C6 witness: approving a perma-rejected sample test succeeds and the
flag survives an attempted resubmission. -/
theorem permaRejected_sticky_witness :
    (approveTest [(0, samplePermaTest)] sampleAdminCaller 0 77).1 =
      .ok { samplePermaTest with
            status := some "approved", approvedBy := some 9,
            approvedAt := some 77, rejectionReason := none } ∧
    permaAt (resubmitTest [(0, samplePermaTest)] sampleOwner 0).2 0 =
      permaAt [(0, samplePermaTest)] 0 :=
  ⟨(permaRejected_sticky [(0, samplePermaTest)] sampleAdminCaller 0
      sampleEditArgs none 77 0).2.2.2.2.2.2 samplePermaTest rfl rfl rfl,
   (permaRejected_sticky [(0, samplePermaTest)] sampleOwner 0
      sampleEditArgs none 77 0).2.2.2.2.1⟩

/-- C7 counterexample: an owner edit of a rejected test moves it back to
"pending" but leaves the prior rejection reason in place — the claim
that the edit clears the rejection reason fails on this input. -/
theorem updateUserTest_rejection_reason_counterexample :
    (dbGet (updateUserTest [(0, sampleRejectedTest)] sampleOwner 0
        sampleEditArgs).2 0).map Test.status = some (some "pending") ∧
    (dbGet (updateUserTest [(0, sampleRejectedTest)] sampleOwner 0
        sampleEditArgs).2 0).map Test.rejectionReason =
      some (some "weak") := by
  constructor <;> decide

/-- C7 (amended): a successful owner edit forces the test's status back
to "pending" regardless of its prior status (the edit loses any previous
approval), but does not clear the stored rejection reason — the patch
leaves `rejectionReason` untouched. -/
theorem updateUserTest_resets_status (tests : List (Nat × Test))
    (caller : Caller) (id : Nat) (args : TestEditArgs) (test : Test)
    (hget : dbGet tests id = some test)
    (hown : test.ownerId = some caller.userId)
    (hyou : args.board.snakes.any (fun s => s.id = args.youId) = true) :
    ∃ t, dbGet (updateUserTest tests caller id args).2 id = some t ∧
      t.status = some "pending" ∧
      t.rejectionReason = test.rejectionReason := by
  have hres : (updateUserTest tests caller id args).2 =
      dbPatch tests id (fun _ =>
        { test with
          name := args.name
          description := args.description
          board := args.board
          game := args.game
          turn := args.turn
          youId := args.youId
          expectedSafeMoves := args.expectedSafeMoves
          status := some "pending" }) := by
    simp [updateUserTest, hget, hown, hyou]
  rw [hres]
  exact ⟨_, dbGet_dbPatch_self tests id _ test hget, rfl, rfl⟩

/-- C7 witness: the owner edits the rejected sample test; it returns to
"pending" with the old reason still stored. -/
theorem updateUserTest_resets_status_witness :
    ∃ t, dbGet (updateUserTest [(0, sampleRejectedTest)] sampleOwner 0
        sampleEditArgs).2 0 = some t ∧
      t.status = some "pending" ∧
      t.rejectionReason = sampleRejectedTest.rejectionReason :=
  updateUserTest_resets_status [(0, sampleRejectedTest)] sampleOwner 0
    sampleEditArgs sampleRejectedTest rfl rfl (by decide)

/-! ### Claims about the authentication layer -/

/-- C9 counterexample: on an expired user session `requireUserSession`
fails with the session-expired error but does not delete the expired
record — the store, the expired session included, is unchanged. -/
theorem requireUserSession_no_delete_counterexample :
    (requireUserSession expiredSessionDB "tok" 99).1 =
      .error "Session expired. Please log in again." ∧
    (requireUserSession expiredSessionDB "tok" 99).2 = expiredSessionDB ∧
    findUserSessionByToken (requireUserSession expiredSessionDB "tok" 99).2
        "tok" =
      some (5, { userId := 0, token := "tok", createdAt := 0,
                 expiresAt := 10 }) :=
  ⟨rfl, rfl, rfl⟩

/-- C9 (amended): session expiry is checked lazily at access time and
the access fails; only the admin gate deletes the expired record as part
of the access — `requireUserSession` raises without deleting and
`getCurrentUser` answers `none` without deleting. -/
theorem session_expiry_lazy (db : AuthDB) (token : String) (now : Nat) :
    (∀ sid s, findUserSessionByToken db token = some (sid, s) →
      s.expiresAt < now →
      requireUserSession db token now =
        (.error "Session expired. Please log in again.", db)) ∧
    (∀ sid s, findUserSessionByToken db token = some (sid, s) →
      s.expiresAt < now →
      getCurrentUser db (some token) now = none) ∧
    (∀ sid s, findAdminSessionByToken db token = some (sid, s) →
      s.expiresAt < now →
      requireAdminSession db token now =
        (.error "Admin session expired. Sign in again.",
         { db with adminSessions := dbDelete db.adminSessions sid })) := by
  refine ⟨?_, ?_, ?_⟩ <;> intro sid s hfind hexp
  · simp [requireUserSession, hfind, hexp]
  · simp [getCurrentUser, hfind, hexp]
  · simp [requireAdminSession, hfind, hexp]

/-- C9 witness: the expired sample sessions drive all three gates. -/
theorem session_expiry_lazy_witness :
    requireUserSession expiredSessionDB "tok" 99 =
      (.error "Session expired. Please log in again.", expiredSessionDB) ∧
    getCurrentUser expiredSessionDB (some "tok") 99 = none ∧
    requireAdminSession expiredSessionDB "atok" 99 =
      (.error "Admin session expired. Sign in again.",
       { expiredSessionDB with
         adminSessions := dbDelete expiredSessionDB.adminSessions 6 }) :=
  ⟨(session_expiry_lazy expiredSessionDB "tok" 99).1 5
      { userId := 0, token := "tok", createdAt := 0, expiresAt := 10 }
      rfl (by decide),
   (session_expiry_lazy expiredSessionDB "tok" 99).2.1 5
      { userId := 0, token := "tok", createdAt := 0, expiresAt := 10 }
      rfl (by decide),
   (session_expiry_lazy expiredSessionDB "atok" 99).2.2 6
      { token := "atok", createdAt := 0, expiresAt := 10 }
      rfl (by decide)⟩

/-- Patching the found limiter row with a record for the same client is
observed by the client-indexed lookup. -/
theorem find_patch_limiter (rows : List (Nat × RateLimitRec)) (c : String)
    (lid : Nat) (lim newRec : RateLimitRec)
    (hfind : rows.find? (fun r => r.2.clientId = c) = some (lid, lim))
    (hc : newRec.clientId = c) :
    (dbPatch rows lid (fun _ => newRec)).find?
        (fun r => r.2.clientId = c) = some (lid, newRec) := by
  induction rows with
  | nil => simp [List.find?] at hfind
  | cons r rest ih =>
    rcases r with ⟨k, v⟩
    rw [dbPatch_cons]
    by_cases hv : v.clientId = c
    · have hhead : ((k, v) :: rest).find? (fun r => r.2.clientId = c) =
          some (k, v) := by
        simp [List.find?, hv]
      rw [hhead] at hfind
      have hk : k = lid := by
        have := congrArg (fun o => Option.map Prod.fst o) hfind
        simpa using this
      subst hk
      rw [if_pos rfl]
      simp [List.find?, hc]
    · have hskip : ((k, v) :: rest).find? (fun r => r.2.clientId = c) =
          rest.find? (fun r => r.2.clientId = c) := by
        simp [List.find?, hv]
      rw [hskip] at hfind
      by_cases hk : k = lid
      · subst hk
        rw [if_pos rfl]
        simp [List.find?, hc]
      · rw [if_neg hk]
        have := ih hfind
        simpa [List.find?, hv] using this

/-- Inserting the first limiter row for a client is observed by the
client-indexed lookup. -/
theorem find_insert_of_none (rows : List (Nat × RateLimitRec)) (c : String)
    (i : Nat) (rec : RateLimitRec)
    (h : rows.find? (fun r => r.2.clientId = c) = none)
    (hc : rec.clientId = c) :
    (dbInsert rows i rec).find? (fun r => r.2.clientId = c) =
      some (i, rec) := by
  induction rows with
  | nil => simp [dbInsert, List.find?, hc]
  | cons r rest ih =>
    rcases r with ⟨k, v⟩
    have hv : ¬ v.clientId = c := by
      intro hv
      simp [List.find?, hv] at h
    have hrest : rest.find? (fun r => r.2.clientId = c) = none := by
      simpa [List.find?, hv] using h
    have := ih hrest
    simp only [dbInsert, List.cons_append] at this ⊢
    simpa [List.find?, hv] using this

/-- A failed attempt never touches the `users` table. -/
theorem recordFailedAttempt_users (db : AuthDB) (c : String) (now : Nat) :
    (recordFailedAttempt db c now).users = db.users := by
  rcases h : findLimiter db c with _ | ⟨lid, l⟩ <;>
    simp [recordFailedAttempt, h]

/-- The first failed attempt of a client inserts a count-1 window. -/
theorem recordFailedAttempt_none (db : AuthDB) (c : String) (now : Nat)
    (h : findLimiter db c = none) :
    recordFailedAttempt db c now =
      { db with
        adminRateLimits := dbInsert db.adminRateLimits db.nextId
          { clientId := c, windowStart := now, attempts := 1,
            blockedUntil := none }
        nextId := db.nextId + 1 } := by
  simp [recordFailedAttempt, h, RATE_LIMIT_WINDOW_MS,
    RATE_LIMIT_MAX_ATTEMPTS]

/-- A failed attempt inside the current window increments the count and
blocks when the threshold is reached. -/
theorem recordFailedAttempt_some (db : AuthDB) (c : String) (now : Nat)
    (lid : Nat) (l : RateLimitRec) (h : findLimiter db c = some (lid, l))
    (hwin : now - l.windowStart < RATE_LIMIT_WINDOW_MS) :
    recordFailedAttempt db c now =
      { db with
        adminRateLimits := dbPatch db.adminRateLimits lid (fun _ =>
          { l with
            attempts := l.attempts + 1
            blockedUntil :=
              if l.attempts + 1 ≥ RATE_LIMIT_MAX_ATTEMPTS then
                some (now + RATE_LIMIT_WINDOW_MS)
              else none }) } := by
  simp [recordFailedAttempt, h, hwin]

/-- One failed login (unknown user) against a count-`a` unblocked window
inside the window: the count rises to `a + 1`, the `users` table is
untouched, and the window blocks exactly when the threshold falls. -/
theorem failed_login_step (compareHash : String → String → Bool)
    (db : AuthDB) (email password clientId newToken : String)
    (t w a lid : Nat)
    (hfind : findLimiter db clientId =
      some (lid, { clientId := clientId, windowStart := w, attempts := a,
                   blockedUntil := none }))
    (hnouser : findUserByEmailLower db (jsTrim (jsToLower email)) = none)
    (hwin : t - w < RATE_LIMIT_WINDOW_MS) :
    findLimiter (login compareHash db email password clientId t
        newToken).2 clientId =
      some (lid,
        { clientId := clientId, windowStart := w, attempts := a + 1,
          blockedUntil :=
            if a + 1 ≥ RATE_LIMIT_MAX_ATTEMPTS then
              some (t + RATE_LIMIT_WINDOW_MS)
            else none }) ∧
    (login compareHash db email password clientId t newToken).2.users =
      db.users := by
  have hck : checkRateLimit db clientId t = none := by
    simp [checkRateLimit, hfind]
  have he : (login compareHash db email password clientId t newToken).2 =
      recordFailedAttempt db clientId t := by
    simp [login, hck, hnouser]
  rw [he]
  refine ⟨?_, recordFailedAttempt_users db clientId t⟩
  rw [recordFailedAttempt_some db clientId t lid _ hfind (by simpa using hwin)]
  exact find_patch_limiter db.adminRateLimits clientId lid _ _ hfind rfl

/-- A lookup by email only reads the `users` table. -/
theorem findUserByEmail_eq_of_users (db' db : AuthDB)
    (h : db'.users = db.users) (e : String) :
    findUserByEmailLower db' e = findUserByEmailLower db e := by
  simp [findUserByEmailLower, h]

/-- C8: the login rate limiter.  (a) While `blockedUntil` lies in the
future every attempt — whatever the credentials — is rejected with the
"too many attempts" error and the store is untouched.  (b) A successful
login (not blocked, user found, hash matches) resets the client's window
to count 0 with `blockedUntil` cleared.  (c) Five failed attempts from a
fresh client, all inside the five-minute window, leave the window
blocked until `t5 + RATE_LIMIT_WINDOW_MS`. -/
theorem login_rate_limiter (compareHash : String → String → Bool)
    (db : AuthDB) (email password clientId newToken : String) (now : Nat) :
    (∀ lid lim b, findLimiter db clientId = some (lid, lim) →
      lim.blockedUntil = some b → now < b →
      login compareHash db email password clientId now newToken =
        ({ ok := false, error := some "Too many attempts. Try again later.",
           retryAt := some b }, db)) ∧
    (∀ uid user lid lim,
      checkRateLimit db clientId now = none →
      findUserByEmailLower db (jsTrim (jsToLower email)) =
        some (uid, user) →
      compareHash password user.passwordHash = true →
      findLimiter db clientId = some (lid, lim) →
      (login compareHash db email password clientId now newToken).1.ok =
        true ∧
      findLimiter (login compareHash db email password clientId now
          newToken).2 clientId =
        some (lid, { lim with
                     windowStart := now, attempts := 0,
                     blockedUntil := none })) ∧
    (∀ t1 t2 t3 t4 t5 : Nat,
      findLimiter db clientId = none →
      findUserByEmailLower db (jsTrim (jsToLower email)) = none →
      t1 ≤ t2 → t2 ≤ t3 → t3 ≤ t4 → t4 ≤ t5 →
      t5 - t1 < RATE_LIMIT_WINDOW_MS →
      findLimiter
        ((login compareHash
          ((login compareHash
            ((login compareHash
              ((login compareHash
                ((login compareHash db email password clientId t1
                  newToken).2)
                email password clientId t2 newToken).2)
              email password clientId t3 newToken).2)
            email password clientId t4 newToken).2)
          email password clientId t5 newToken).2) clientId =
      some (db.nextId,
        { clientId := clientId, windowStart := t1, attempts := 5,
          blockedUntil := some (t5 + RATE_LIMIT_WINDOW_MS) })) := by
  refine ⟨?_, ?_, ?_⟩
  · intro lid lim b hfind hb hlt
    have hck : checkRateLimit db clientId now = some b := by
      simp [checkRateLimit, hfind, hb, hlt]
    simp [login, hck]
  · intro uid user lid lim hck huser hcmp hfind
    have hcli : lim.clientId = clientId := by
      have := List.find?_some hfind
      simpa using this
    constructor
    · simp [login, hck, huser, hcmp]
    · have he2 : (login compareHash db email password clientId now
          newToken).2.adminRateLimits =
          (resetRateLimit db clientId now).adminRateLimits := by
        simp [login, hck, huser, hcmp]
      have hstep : findLimiter (login compareHash db email password clientId
          now newToken).2 clientId =
          (resetRateLimit db clientId
            now).adminRateLimits.find? (fun r => r.2.clientId = clientId) := by
        simp [findLimiter, he2]
      rw [hstep]
      have hr : resetRateLimit db clientId now =
          { db with adminRateLimits :=
              dbPatch db.adminRateLimits lid (fun _ =>
                { lim with
                  windowStart := now, attempts := 0,
                  blockedUntil := none }) } := by
        simp [resetRateLimit, hfind]
      rw [hr]
      exact find_patch_limiter db.adminRateLimits clientId lid _ _ hfind hcli
  · intro t1 t2 t3 t4 t5 hfresh hnouser h12 h23 h34 h45 hwin
    have hck1 : checkRateLimit db clientId t1 = none := by
      simp [checkRateLimit, hfresh]
    have he1 : (login compareHash db email password clientId t1
        newToken).2 = recordFailedAttempt db clientId t1 := by
      simp [login, hck1, hnouser]
    have hf1 : findLimiter (login compareHash db email password clientId t1
        newToken).2 clientId =
        some (db.nextId,
          { clientId := clientId, windowStart := t1, attempts := 1,
            blockedUntil := none }) := by
      rw [he1, recordFailedAttempt_none db clientId t1 hfresh]
      have := find_insert_of_none db.adminRateLimits clientId db.nextId
        { clientId := clientId, windowStart := t1, attempts := 1,
          blockedUntil := none } hfresh rfl
      simpa [findLimiter] using this
    have hu1 : (login compareHash db email password clientId t1
        newToken).2.users = db.users := by
      rw [he1]
      exact recordFailedAttempt_users db clientId t1
    have hn1 : findUserByEmailLower (login compareHash db email password
        clientId t1 newToken).2 (jsTrim (jsToLower email)) = none := by
      rw [findUserByEmail_eq_of_users _ db hu1]
      exact hnouser
    have hs2 := failed_login_step compareHash _ email password clientId
      newToken t2 t1 1 db.nextId hf1 hn1
      (by simp only [RATE_LIMIT_WINDOW_MS] at hwin ⊢; omega)
    have hf2 : findLimiter (login compareHash (login compareHash db email
        password clientId t1 newToken).2 email password clientId t2
        newToken).2 clientId =
        some (db.nextId,
          { clientId := clientId, windowStart := t1, attempts := 2,
            blockedUntil := none }) := by
      simpa [RATE_LIMIT_MAX_ATTEMPTS] using hs2.1
    have hu2 : (login compareHash (login compareHash db email password
        clientId t1 newToken).2 email password clientId t2
        newToken).2.users = db.users := by
      rw [hs2.2]
      exact hu1
    have hn2 : findUserByEmailLower (login compareHash (login compareHash db
        email password clientId t1 newToken).2 email password clientId t2
        newToken).2 (jsTrim (jsToLower email)) = none := by
      rw [findUserByEmail_eq_of_users _ db hu2]
      exact hnouser
    have hs3 := failed_login_step compareHash _ email password clientId
      newToken t3 t1 2 db.nextId hf2 hn2
      (by simp only [RATE_LIMIT_WINDOW_MS] at hwin ⊢; omega)
    have hf3 : findLimiter (login compareHash (login compareHash (login
        compareHash db email password clientId t1 newToken).2 email password
        clientId t2 newToken).2 email password clientId t3
        newToken).2 clientId =
        some (db.nextId,
          { clientId := clientId, windowStart := t1, attempts := 3,
            blockedUntil := none }) := by
      simpa [RATE_LIMIT_MAX_ATTEMPTS] using hs3.1
    have hu3 : (login compareHash (login compareHash (login compareHash db
        email password clientId t1 newToken).2 email password clientId t2
        newToken).2 email password clientId t3 newToken).2.users =
        db.users := by
      rw [hs3.2]
      exact hu2
    have hn3 : findUserByEmailLower (login compareHash (login compareHash
        (login compareHash db email password clientId t1 newToken).2 email
        password clientId t2 newToken).2 email password clientId t3
        newToken).2 (jsTrim (jsToLower email)) = none := by
      rw [findUserByEmail_eq_of_users _ db hu3]
      exact hnouser
    have hs4 := failed_login_step compareHash _ email password clientId
      newToken t4 t1 3 db.nextId hf3 hn3
      (by simp only [RATE_LIMIT_WINDOW_MS] at hwin ⊢; omega)
    have hf4 : findLimiter (login compareHash (login compareHash (login
        compareHash (login compareHash db email password clientId t1
        newToken).2 email password clientId t2 newToken).2 email password
        clientId t3 newToken).2 email password clientId t4
        newToken).2 clientId =
        some (db.nextId,
          { clientId := clientId, windowStart := t1, attempts := 4,
            blockedUntil := none }) := by
      simpa [RATE_LIMIT_MAX_ATTEMPTS] using hs4.1
    have hu4 : (login compareHash (login compareHash (login compareHash
        (login compareHash db email password clientId t1 newToken).2 email
        password clientId t2 newToken).2 email password clientId t3
        newToken).2 email password clientId t4 newToken).2.users =
        db.users := by
      rw [hs4.2]
      exact hu3
    have hn4 : findUserByEmailLower (login compareHash (login compareHash
        (login compareHash (login compareHash db email password clientId t1
        newToken).2 email password clientId t2 newToken).2 email password
        clientId t3 newToken).2 email password clientId t4
        newToken).2 (jsTrim (jsToLower email)) = none := by
      rw [findUserByEmail_eq_of_users _ db hu4]
      exact hnouser
    have hs5 := failed_login_step compareHash _ email password clientId
      newToken t5 t1 4 db.nextId hf4 hn4
      (by simp only [RATE_LIMIT_WINDOW_MS] at hwin ⊢; omega)
    simpa [RATE_LIMIT_MAX_ATTEMPTS] using hs5.1

/-- C8 witness: a blocked client is rejected with no state change even
with accepting credentials; a successful login resets the four-failure
window; five failures at time 0 from a fresh store block until the
window length. -/
theorem login_rate_limiter_witness :
    login (fun _ _ => true) blockedDB "al@example.com" "pw" "c1" 500 "tk" =
      ({ ok := false, error := some "Too many attempts. Try again later.",
         retryAt := some 1000 }, blockedDB) ∧
    (login (fun _ _ => true) fourFailDB "al@example.com" "pw" "c1" 200
        "tk").1.ok = true ∧
    findLimiter (login (fun _ _ => true) fourFailDB "al@example.com" "pw"
        "c1" 200 "tk").2 "c1" =
      some (3,
        { clientId := "c1", windowStart := 200, attempts := 0,
          blockedUntil := none }) ∧
    findLimiter
      ((login (fun _ _ => false)
        ((login (fun _ _ => false)
          ((login (fun _ _ => false)
            ((login (fun _ _ => false)
              ((login (fun _ _ => false) freshDB "e" "p" "c1" 0 "tk").2)
              "e" "p" "c1" 0 "tk").2)
            "e" "p" "c1" 0 "tk").2)
          "e" "p" "c1" 0 "tk").2)
        "e" "p" "c1" 0 "tk").2) "c1" =
      some (0,
        { clientId := "c1", windowStart := 0, attempts := 5,
          blockedUntil := some (0 + RATE_LIMIT_WINDOW_MS) }) := by
  have hreset := (login_rate_limiter (fun _ _ => true) fourFailDB
    "al@example.com" "pw" "c1" "tk" 200).2.1 0 sampleUser 3
    { clientId := "c1", windowStart := 100, attempts := 4,
      blockedUntil := none } rfl rfl rfl rfl
  refine ⟨?_, hreset.1, hreset.2, ?_⟩
  · exact (login_rate_limiter (fun _ _ => true) blockedDB "al@example.com"
      "pw" "c1" "tk" 500).1 3
      { clientId := "c1", windowStart := 0, attempts := 5,
        blockedUntil := some 1000 } 1000 rfl rfl (by decide)
  · exact (login_rate_limiter (fun _ _ => false) freshDB "e" "p" "c1"
      "tk" 0).2.2 0 0 0 0 0 rfl rfl (by decide) (by decide) (by decide)
      (by decide) (by decide)

end Snek
